import Mathlib

/-!
Verification of the status-classification and data-aggregation core of the
Heartz monitor dashboard (src/streamlit_app.py).

The Python script is shallowly embedded: JSON values become an inductive
type `Json`, Python's implicit `str()` / `.lower()` / `.upper()` / truthiness
semantics are modelled explicitly (restricted to the ASCII fragment, which is
all the program's constant strings use), and every spot where the Python code
can raise an uncaught exception (attribute access on a non-dict, `.upper()`
on a non-string, `", ".join` over non-string elements, iterating a
non-iterable) is modelled with `Except String`, the error string naming the
Python exception class.
-/

namespace Heartz

/-- Parsed JSON values, as produced by `response.json()` in `fetch_data`.
Numbers are modelled as integers; no claim depends on float payloads. -/
inductive Json where
  | null : Json
  | bool : Bool → Json
  | num : Int → Json
  | str : String → Json
  | arr : List Json → Json
  | obj : List (String × Json) → Json

/-- The decimal digit character for `n < 10` (Python's digit rendering). -/
def pyDigit : Nat → Char
  | 0 => '0'
  | 1 => '1'
  | 2 => '2'
  | 3 => '3'
  | 4 => '4'
  | 5 => '5'
  | 6 => '6'
  | 7 => '7'
  | 8 => '8'
  | 9 => '9'
  | _ => '*'

/-- Decimal digits of `n`, most significant first, with explicit fuel so the
definition is structurally recursive (fuel `n + 1` always suffices). -/
def natReprAux : Nat → Nat → List Char
  | 0, _ => []
  | fuel + 1, n =>
    if n < 10 then [pyDigit n]
    else natReprAux fuel (n / 10) ++ [pyDigit (n % 10)]

/-- Python's `str` on a non-negative integer: decimal representation. -/
def natRepr (n : Nat) : String :=
  String.mk (natReprAux (n + 1) n)

/-- Python's `str` on an integer: decimal representation with a sign. -/
def intRepr (i : Int) : String :=
  if i < 0 then "-" ++ natRepr i.natAbs else natRepr i.natAbs

mutual

/-- Size of a JSON value, used as recursion fuel for `pyRepr`. -/
def jsize : Json → Nat
  | .null => 1
  | .bool _ => 1
  | .num _ => 1
  | .str _ => 1
  | .arr xs => 1 + jsizeArr xs
  | .obj fs => 1 + jsizeObj fs

/-- Size of a list of JSON values. -/
def jsizeArr : List Json → Nat
  | [] => 0
  | x :: r => 1 + jsize x + jsizeArr r

/-- Size of a list of JSON object fields. -/
def jsizeObj : List (String × Json) → Nat
  | [] => 0
  | (_, v) :: r => 1 + jsize v + jsizeObj r

end

/-- Python's `repr` of a parsed-JSON value, fuelled so that the recursion is
structural (the fuel `jsize j` used by `pyRepr` always suffices, since the
size strictly dominates nesting depth); string escaping inside `repr` of a
string is not modelled — no claim depends on it. -/
def pyReprF : Nat → Json → String
  | _, .null => "None"
  | _, .bool true => "True"
  | _, .bool false => "False"
  | _, .num i => intRepr i
  | _, .str s => "\x27" ++ s ++ "\x27"
  | 0, .arr _ => "..."
  | fuel + 1, .arr xs =>
    "[" ++ String.intercalate ", " (xs.map (pyReprF fuel)) ++ "]"
  | 0, .obj _ => "..."
  | fuel + 1, .obj fs =>
    "\x7b" ++
      String.intercalate ", "
        (fs.map (fun kv => "\x27" ++ kv.1 ++ "\x27: " ++ pyReprF fuel kv.2)) ++
      "\x7d"

/-- Python's `repr` of a parsed-JSON value. -/
def pyRepr (j : Json) : String := pyReprF (jsize j) j

/-- Python's `str()` of a parsed-JSON value: the string itself for strings,
`repr` otherwise (as in `str(status)` on line 28/42 of the source). -/
def pyStr : Json → String
  | .str s => s
  | j => pyRepr j

/-- ASCII fragment of Python's `str.lower` on one character. -/
def pyCharLower (c : Char) : Char :=
  if 65 ≤ c.toNat ∧ c.toNat ≤ 90 then Char.ofNat (c.toNat + 32) else c

/-- ASCII fragment of Python's `str.upper` on one character. -/
def pyCharUpper (c : Char) : Char :=
  if 97 ≤ c.toNat ∧ c.toNat ≤ 122 then Char.ofNat (c.toNat - 32) else c

/-- ASCII fragment of Python's `str.lower`. -/
def pyLower (s : String) : String := String.mk (s.data.map pyCharLower)

/-- ASCII fragment of Python's `str.upper`. -/
def pyUpper (s : String) : String := String.mk (s.data.map pyCharUpper)

/-- `get_status_color` (src/streamlit_app.py lines 23-36): colourblind-friendly
hex color for a service status; the argument is an arbitrary JSON value, as in
the source it is always fed through `str(status).lower()`. -/
def get_status_color (status : Json) : String :=
  let s := pyLower (pyStr status)
  if s ∈ ["healthy", "up", "ok", "good"] then "#0072B2"
  else if s ∈ ["warning", "degraded", "slow"] then "#E69F00"
  else if s ∈ ["down", "fail", "error"] then "#D55E00"
  else "#999999"

/-- `get_status_emoji` (src/streamlit_app.py lines 38-50). -/
def get_status_emoji (status : Json) : String :=
  let s := pyLower (pyStr status)
  if s ∈ ["healthy", "up", "ok", "good"] then "✅"
  else if s ∈ ["warning", "degraded", "slow"] then "⚠️"
  else if s ∈ ["down", "fail", "error"] then "❌"
  else "ℹ️"

/-- Python truthiness of a parsed-JSON value (`if data:`, `if tags:`, ...). -/
def truthy : Json → Bool
  | .null => false
  | .bool b => b
  | .num i => decide (i ≠ 0)
  | .str s => decide (s ≠ "")
  | .arr xs => !xs.isEmpty
  | .obj fs => !fs.isEmpty

/-- Is the value a JSON string? -/
def isStr : Json → Bool
  | .str _ => true
  | _ => false

/-- Python's `d.get(key, default)`: dictionary lookup with a default; raises
`AttributeError` when the receiver is not a dict (no other JSON value has a
`.get` attribute). -/
def pyGet (d : Json) (key : String) (dflt : Json) : Except String Json :=
  match d with
  | .obj fs => .ok ((fs.lookup key).getD dflt)
  | _ => .error "AttributeError"

/-- Python's `x.upper()` on a value of unknown type: only strings have the
attribute (as in `status.upper()`, source lines 75 and 102). -/
def pyUpperAttr : Json → Except String String
  | .str s => .ok (pyUpper s)
  | _ => .error "AttributeError"

/-- Collect the elements of a list as strings; `str.join` raises `TypeError`
as soon as it meets a non-string element. -/
def strElems : List Json → Except String (List String)
  | [] => .ok []
  | .str s :: r => do
    let t ← strElems r
    .ok (s :: t)
  | _ :: _ => .error "TypeError"

/-- Python's `sep.join(x)`: joins an iterable of strings (a list of strings,
the characters of a string, or the keys of a dict); raises `TypeError` on
anything else. -/
def pyJoin (sep : String) (j : Json) : Except String String :=
  match j with
  | .arr xs => do
    let es ← strElems xs
    .ok (String.intercalate sep es)
  | .str s => .ok (String.intercalate sep (s.data.map (fun c => String.mk [c])))
  | .obj fs => .ok (String.intercalate sep (fs.map Prod.fst))
  | _ => .error "TypeError"

/-- Python's `for x in v` over a parsed-JSON value: list elements, the
characters of a string, or the keys of a dict; `TypeError` otherwise. -/
def pyIter : Json → Except String (List Json)
  | .arr xs => .ok xs
  | .str s => .ok (s.data.map (fun c => .str (String.mk [c])))
  | .obj fs => .ok (fs.map (fun kv => .str kv.1))
  | _ => .error "TypeError"

/-- The `or "N/A"` defaulting of the description cell in the table view
(source line 119): `service.get("description") or "N/A"`. -/
def descCellTable (service : Json) : Except String Json := do
  let d ← pyGet service "description" .null
  .ok (if truthy d then d else .str "N/A")

/-- The `or "No details provided"` defaulting of the description in the card
view (source line 68): `service.get("description") or "No details provided"`. -/
def descCellCard (service : Json) : Except String Json := do
  let d ← pyGet service "description" .null
  .ok (if truthy d then d else .str "No details provided")

/-- One row of the table view (source lines 113-121). `name` and
`description` keep the raw JSON value placed in the row dict; `statusCell`
and `tags` are the strings produced by the f-string and the join. -/
structure TableRow where
  name : Json
  statusCell : String
  description : Json
  tags : String

/-- Build one table row from a service element (source lines 113-121),
in the source's evaluation order: `status` and the emoji first, then the
dict literal's fields. -/
def tableRowOf (service : Json) : Except String TableRow := do
  let status ← pyGet service "status" (.str "unknown")
  let emoji := get_status_emoji status
  let name ← pyGet service "name" (.str "Unnamed Service")
  let description ← descCellTable service
  let tagsVal ← pyGet service "tags" (.arr [])
  let tags ← pyJoin ", " tagsVal
  .ok { name := name, statusCell := emoji ++ " " ++ pyStr status,
        description := description, tags := tags }

/-- The data rendered into one HTML card by `display_service_card_html`. -/
structure ServiceCard where
  name : String
  statusText : String
  color : String
  description : String
  tagsText : String

/-- `display_service_card_html` (source lines 62-80): the card's data, with
the f-string conversions applied; `status.upper()` raises on a non-string
status, and the join raises on non-string tags (evaluated in the f-string's
order: the tag join is guarded by `if tags`). -/
def display_service_card_html (service : Json) : Except String ServiceCard := do
  let name ← pyGet service "name" (.str "Unnamed Service")
  let status ← pyGet service "status" (.str "unknown")
  let description ← descCellCard service
  let tags ← pyGet service "tags" (.arr [])
  let color := get_status_color status
  let statusText ← pyUpperAttr status
  let tagsText ← if truthy tags then pyJoin ", " tags else .ok "None"
  .ok { name := pyStr name, statusText := statusText, color := color,
        description := pyStr description, tagsText := tagsText }

/-- Build every table row, in order, as the `for service in services` loop
of the table view does. -/
def buildRows : List Json → Except String (List TableRow)
  | [] => .ok []
  | s :: r => do
    let row ← tableRowOf s
    let rows ← buildRows r
    .ok (row :: rows)

/-- Build every card, in order, as the `for service in services` loop of the
card view does. -/
def buildCards : List Json → Except String (List ServiceCard)
  | [] => .ok []
  | s :: r => do
    let c ← display_service_card_html s
    let cs ← buildCards r
    .ok (c :: cs)

/-- The services section of the page: either the "No service details found"
message, the table rows, or the cards. -/
inductive RenderedBody where
  | noServices : RenderedBody
  | table : List TableRow → RenderedBody
  | cards : List ServiceCard → RenderedBody

/-- Everything `main` renders from a successfully fetched primary payload. -/
structure PrimaryRender where
  overallLine : String
  timestamp : Option Json
  body : RenderedBody

/-- The primary-payload part of `main` (source lines 97-128): overall status
header, optional timestamp, and the chosen view over `results`. -/
def renderPrimary (view_option : String) (data : Json) : Except String PrimaryRender := do
  let overall_status ← pyGet data "status" (.str "unknown")
  let overall_emoji := get_status_emoji overall_status
  let up ← pyUpperAttr overall_status
  let line := "## Overall System Status: " ++ overall_emoji ++ " " ++ up
  let ts : Option Json :=
    match data with
    | .obj fs => fs.lookup "timestamp"
    | _ => none
  let services ← pyGet data "results" (.arr [])
  if truthy services then
    if view_option == "Table view" then do
      let elems ← pyIter services
      let rows ← buildRows elems
      .ok { overallLine := line, timestamp := ts, body := .table rows }
    else do
      let elems ← pyIter services
      let cards ← buildCards elems
      .ok { overallLine := line, timestamp := ts, body := .cards cards }
  else
    .ok { overallLine := line, timestamp := ts, body := .noServices }

/-- One entry of `kafka_lag_list` (source line 154). -/
structure LagEntry where
  topic : Json
  lag : Json

/-- One entry of `kafka_debug_info` (source lines 155-160). -/
structure DiagEntry where
  endpoint : Nat
  url : String
  response : Json
  message : String

/-- The sentinel pair appended when `fetch_data` returned `None` or a falsy
payload (source lines 150-153 and 158). -/
def sentinelPair (base : String) (i : Nat) : LagEntry × DiagEntry :=
  ({ topic := .str ("Endpoint " ++ natRepr i), lag := .str "Error" },
   { endpoint := i, url := base ++ natRepr i, response := .str "Error",
     message := "Endpoint " ++ natRepr i ++ " returned error" })

/-- One iteration of the Kafka loop (source lines 143-161): fetch endpoint
`i`, test the response's truthiness, and produce the lag entry and the debug
entry. `secondary i = none` models a `fetch_data` failure. -/
def kafkaStep (base : String) (secondary : Nat → Option Json) (i : Nat) :
    Except String (LagEntry × DiagEntry) :=
  match secondary i with
  | some j =>
    if truthy j then do
      let topic ← pyGet j "topic" (.str "Unknown")
      let lag ← pyGet j "lag" (.str "N/A")
      .ok ({ topic := topic, lag := lag },
           { endpoint := i, url := base ++ natRepr i, response := j,
             message := "Endpoint " ++ natRepr i ++ " OK" })
    else .ok (sentinelPair base i)
  | none => .ok (sentinelPair base i)

/-- The Kafka loop over a list of endpoint indices, accumulating both lists
in order. -/
def runKafkaList (base : String) (secondary : Nat → Option Json) :
    List Nat → Except String (List LagEntry × List DiagEntry)
  | [] => .ok ([], [])
  | i :: r => do
    let (e, d) ← kafkaStep base secondary i
    let (es, ds) ← runKafkaList base secondary r
    .ok (e :: es, d :: ds)

/-- `total_endpoints = 16` (source line 140). -/
def total_endpoints : Nat := 16

/-- The Kafka section of `main` (source lines 143-161): loop over endpoints
`1` to `n` in ascending order. -/
def runKafka (base : String) (secondary : Nat → Option Json) (n : Nat) :
    Except String (List LagEntry × List DiagEntry) :=
  runKafkaList base secondary (List.range' 1 n)

/-- Everything `main` renders in one run. -/
structure MainOutcome where
  primaryFetchFailed : Bool
  primaryView : Option PrimaryRender
  lagEntries : List LagEntry
  diagnostics : List DiagEntry

/-- Python's `data is None` test on a fetch outcome: true when `fetch_data`
failed, and also when the fetched body was JSON `null` (both are the Python
value `None`). -/
def isPyNone : Option Json → Bool
  | none => true
  | some .null => true
  | some _ => false

/-- What `main` renders when the primary fetch fails (source lines 93-95):
it shows an error and returns — no services, no Kafka fetches. -/
def failedOutcome : MainOutcome :=
  { primaryFetchFailed := true, primaryView := none,
    lagEntries := [], diagnostics := [] }

/-- `main` (source lines 82-167), with the fetch collaborators and the
configuration injected: the primary fetch outcome, the Kafka base URL, and
the per-index secondary fetch outcome. -/
def main (view_option : String) (primary : Option Json) (base : String)
    (secondary : Nat → Option Json) : Except String MainOutcome :=
  if isPyNone primary then .ok failedOutcome
  else
    match primary with
    | some d => do
      let pv ← renderPrimary view_option d
      let (lag, diag) ← runKafka base secondary total_endpoints
      .ok { primaryFetchFailed := false, primaryView := some pv,
            lagEntries := lag, diagnostics := diag }
    | none => .ok failedOutcome

/-! ## Helper machinery for the Kafka loop -/

/-- The interface contract of a secondary-fetch outcome: when the payload is
truthy (so the code extracts fields from it), it is a JSON object. Failures
(`none`) and falsy payloads satisfy it trivially. -/
def truthyImpObj : Option Json → Bool
  | none => true
  | some j => !truthy j || (match j with | .obj _ => true | _ => false)

/-- A secondary-fetch outcome that the loop treats as a success: a truthy
(hence non-empty) JSON object. -/
def succObj : Option Json → Bool
  | some (.obj fs) => !fs.isEmpty
  | _ => false

/-- The lag entry built from a successful (truthy object) payload: `topic`
defaulting to `"Unknown"`, `lag` defaulting to `"N/A"`. -/
def lagSuccess (fs : List (String × Json)) : LagEntry :=
  { topic := (fs.lookup "topic").getD (.str "Unknown"),
    lag := (fs.lookup "lag").getD (.str "N/A") }

/-- Total companion of `kafkaStep`: the pair it produces when the payload
respects `truthyImpObj` (the only case in which `kafkaStep` cannot raise). -/
def stepValue (base : String) (secondary : Nat → Option Json) (i : Nat) :
    LagEntry × DiagEntry :=
  match secondary i with
  | some (.obj fs) =>
    if fs.isEmpty then sentinelPair base i
    else (lagSuccess fs,
          { endpoint := i, url := base ++ natRepr i, response := .obj fs,
            message := "Endpoint " ++ natRepr i ++ " OK" })
  | _ => sentinelPair base i

theorem kafkaStep_eq_stepValue (base : String) (secondary : Nat → Option Json)
    (i : Nat) (h : truthyImpObj (secondary i) = true) :
    kafkaStep base secondary i = .ok (stepValue base secondary i) := by
  unfold kafkaStep stepValue
  cases hfi : secondary i with
  | none => rfl
  | some j =>
    rw [hfi] at h
    cases j with
    | obj fs =>
      rcases Bool.eq_false_or_eq_true fs.isEmpty with he | he
      · have ht : truthy (.obj fs) = false := by simp [truthy, he]
        simp [ht, he]
      · have ht : truthy (.obj fs) = true := by simp [truthy, he]
        simp only [ht, he, pyGet, lagSuccess, if_true, Bool.false_eq_true, if_false]
        rfl
    | null => simp [truthy]
    | bool b =>
      have hb : truthy (.bool b) = false := by simpa [truthyImpObj] using h
      simp [hb]
    | num n =>
      have hb : truthy (.num n) = false := by simpa [truthyImpObj] using h
      simp [hb]
    | str s =>
      have hb : truthy (.str s) = false := by simpa [truthyImpObj] using h
      simp [hb]
    | arr xs =>
      have hb : truthy (.arr xs) = false := by simpa [truthyImpObj] using h
      simp [hb]

theorem runKafkaList_eq (base : String) (secondary : Nat → Option Json) :
    ∀ L : List Nat, (∀ i ∈ L, truthyImpObj (secondary i) = true) →
      runKafkaList base secondary L =
        .ok (L.map (fun i => (stepValue base secondary i).1),
             L.map (fun i => (stepValue base secondary i).2))
  | [], _ => rfl
  | i :: r, h => by
    have h1 := h i (List.mem_cons_self i r)
    have hr := runKafkaList_eq base secondary r
      (fun j hj => h j (List.mem_cons_of_mem i hj))
    simp [runKafkaList, kafkaStep_eq_stepValue base secondary i h1, hr]
    rfl

theorem stepValue_endpoint (base : String) (secondary : Nat → Option Json)
    (i : Nat) : (stepValue base secondary i).2.endpoint = i := by
  unfold stepValue
  cases secondary i with
  | none => rfl
  | some j =>
    cases j with
    | obj fs =>
      rcases Bool.eq_false_or_eq_true fs.isEmpty with he | he <;> simp [he, sentinelPair]
    | null => rfl
    | bool b => rfl
    | num n => rfl
    | str s => rfl
    | arr xs => rfl

theorem getElem?_range'_one (s n i : Nat) (h : i < n) :
    (List.range' s n)[i]? = some (s + i) := by
  rw [List.getElem?_range' s 1 h]
  congr 1
  omega

theorem truthyImpObj_of_succObj (o : Option Json) (h : succObj o = true) :
    truthyImpObj o = true := by
  cases o with
  | none => rfl
  | some j => cases j <;> simp_all [succObj, truthyImpObj]

theorem stepValue_of_none (base : String) (secondary : Nat → Option Json)
    (i : Nat) (h : secondary i = none) :
    stepValue base secondary i = sentinelPair base i := by
  unfold stepValue
  rw [h]

theorem stepValue_of_not_truthy (base : String) (secondary : Nat → Option Json)
    (i : Nat) (j : Json) (hfi : secondary i = some j) (hft : truthy j = false) :
    stepValue base secondary i = sentinelPair base i := by
  unfold stepValue
  rw [hfi]
  cases j with
  | obj fs =>
    have : fs.isEmpty = true := by simpa [truthy] using hft
    simp [this]
  | null => rfl
  | bool b => rfl
  | num n => rfl
  | str s => rfl
  | arr xs => rfl

theorem stepValue_of_success (base : String) (secondary : Nat → Option Json)
    (i : Nat) (fs : List (String × Json)) (hfi : secondary i = some (.obj fs))
    (hne : fs.isEmpty = false) :
    stepValue base secondary i =
      (lagSuccess fs,
       { endpoint := i, url := base ++ natRepr i, response := .obj fs,
         message := "Endpoint " ++ natRepr i ++ " OK" }) := by
  unfold stepValue
  rw [hfi]
  simp [hne]

theorem runKafka_pos (base : String) (secondary : Nat → Option Json) (n i : Nat)
    (h : ∀ m ∈ List.range' 1 n, truthyImpObj (secondary m) = true)
    (h1 : 1 ≤ i) (h2 : i ≤ n) :
    (runKafka base secondary n).map (fun p => (p.1[i-1]?, p.2[i-1]?)) =
      .ok (some (stepValue base secondary i).1,
           some (stepValue base secondary i).2) := by
  rw [runKafka, runKafkaList_eq base secondary _ h]
  have hlt : i - 1 < n := by omega
  have hi : 1 + (i - 1) = i := by omega
  simp only [Except.map, List.getElem?_map, getElem?_range'_one 1 n (i - 1) hlt, hi]
  rfl

/-! ## Well-typedness of a primary payload -/

theorem except_bind_ok {ε α β : Type} (a : α) (f : α → Except ε β) :
    (Except.ok a : Except ε α) >>= f = f a := rfl

/-- Every element of the list is a JSON string. -/
def allStrB : List Json → Bool
  | [] => true
  | x :: r => isStr x && allStrB r

/-- A well-typed `tags` field: absent, or a list of strings. -/
def wtTags : Option Json → Bool
  | none => true
  | some (.arr xs) => allStrB xs
  | some _ => false

/-- A well-typed `status` field: absent, or a string. -/
def wtStatus : Option Json → Bool
  | none => true
  | some (.str _) => true
  | some _ => false

/-- A well-typed service element: a dict whose `tags`, when present, is a
list of strings, and — in the card view, which calls `status.upper()` —
whose `status`, when present, is a string. -/
def wtService (view_option : String) (j : Json) : Bool :=
  match j with
  | .obj fs =>
    wtTags (fs.lookup "tags") &&
      ((view_option == "Table view") || wtStatus (fs.lookup "status"))
  | _ => false

/-- `wtService` for every element. -/
def allWtService (view_option : String) : List Json → Bool
  | [] => true
  | x :: r => wtService view_option x && allWtService view_option r

/-- A well-typed primary payload: a dict whose top-level `status`, when
present, is a string, and whose `results`, when truthy, is a list of
well-typed service elements. -/
def wtPrimary (view_option : String) (d : Json) : Bool :=
  match d with
  | .obj fs =>
    wtStatus (fs.lookup "status") &&
      (match fs.lookup "results" with
       | none => true
       | some v => !truthy v ||
           (match v with
            | .arr xs => allWtService view_option xs
            | _ => false))
  | _ => false

theorem strElems_ok : ∀ xs, allStrB xs = true → ∃ l, strElems xs = .ok l := by
  intro xs
  induction xs with
  | nil => exact fun _ => ⟨[], rfl⟩
  | cons x r ih =>
    intro h
    rw [allStrB, Bool.and_eq_true] at h
    obtain ⟨l, hl⟩ := ih h.2
    cases x with
    | str s => exact ⟨s :: l, by simp [strElems, hl, except_bind_ok]⟩
    | null => simp [isStr] at h
    | bool b => simp [isStr] at h
    | num n => simp [isStr] at h
    | arr ys => simp [isStr] at h
    | obj gs => simp [isStr] at h

theorem pyJoin_arr_ok (sep : String) (xs : List Json) (h : allStrB xs = true) :
    ∃ r, pyJoin sep (.arr xs) = .ok r := by
  obtain ⟨l, hl⟩ := strElems_ok xs h
  exact ⟨String.intercalate sep l, by simp [pyJoin, hl, except_bind_ok]⟩

theorem pyJoin_tags_ok (sep : String) (o : Option Json) (h : wtTags o = true) :
    ∃ r, pyJoin sep (o.getD (.arr [])) = .ok r := by
  cases o with
  | none => exact pyJoin_arr_ok sep [] rfl
  | some v =>
    cases v with
    | arr xs => exact pyJoin_arr_ok sep xs (by simpa [wtTags] using h)
    | null => simp [wtTags] at h
    | bool b => simp [wtTags] at h
    | num n => simp [wtTags] at h
    | str s => simp [wtTags] at h
    | obj gs => simp [wtTags] at h

theorem upper_ok (o : Option Json) (h : wtStatus o = true) :
    ∃ u, pyUpperAttr (o.getD (.str "unknown")) = .ok u := by
  cases o with
  | none => exact ⟨pyUpper "unknown", rfl⟩
  | some v =>
    cases v with
    | str s => exact ⟨pyUpper s, rfl⟩
    | null => simp [wtStatus] at h
    | bool b => simp [wtStatus] at h
    | num n => simp [wtStatus] at h
    | arr xs => simp [wtStatus] at h
    | obj gs => simp [wtStatus] at h

theorem tableRowOf_ok (view_option : String) (x : Json)
    (h : wtService view_option x = true) : ∃ r, tableRowOf x = .ok r := by
  cases x with
  | obj fs =>
    rw [wtService, Bool.and_eq_true] at h
    obtain ⟨t, ht⟩ := pyJoin_tags_ok ", " (fs.lookup "tags") h.1
    simp only [tableRowOf, pyGet, descCellTable, except_bind_ok, ht]
    exact ⟨_, rfl⟩
  | null => simp [wtService] at h
  | bool b => simp [wtService] at h
  | num n => simp [wtService] at h
  | str s => simp [wtService] at h
  | arr ys => simp [wtService] at h

theorem card_ok (view_option : String) (x : Json)
    (hview : (view_option == "Table view") = false)
    (h : wtService view_option x = true) :
    ∃ c, display_service_card_html x = .ok c := by
  cases x with
  | obj fs =>
    rw [wtService, Bool.and_eq_true, hview, Bool.false_or] at h
    obtain ⟨u, hu⟩ := upper_ok (fs.lookup "status") h.2
    cases htr : truthy ((fs.lookup "tags").getD (.arr [])) with
    | false =>
      simp only [display_service_card_html, pyGet, descCellCard, except_bind_ok,
        hu, htr, Bool.false_eq_true, if_false]
      exact ⟨_, rfl⟩
    | true =>
      obtain ⟨t, ht⟩ := pyJoin_tags_ok ", " (fs.lookup "tags") h.1
      simp only [display_service_card_html, pyGet, descCellCard, except_bind_ok,
        hu, htr, if_true, ht]
      exact ⟨_, rfl⟩
  | null => simp [wtService] at h
  | bool b => simp [wtService] at h
  | num n => simp [wtService] at h
  | str s => simp [wtService] at h
  | arr ys => simp [wtService] at h

theorem buildRows_ok (view_option : String) :
    ∀ xs, allWtService view_option xs = true → ∃ rs, buildRows xs = .ok rs := by
  intro xs
  induction xs with
  | nil => exact fun _ => ⟨[], rfl⟩
  | cons x r ih =>
    intro h
    rw [allWtService, Bool.and_eq_true] at h
    obtain ⟨row, hrow⟩ := tableRowOf_ok view_option x h.1
    obtain ⟨rs, hrs⟩ := ih h.2
    exact ⟨row :: rs, by simp [buildRows, hrow, hrs, except_bind_ok]⟩

theorem buildCards_ok (view_option : String)
    (hview : (view_option == "Table view") = false) :
    ∀ xs, allWtService view_option xs = true → ∃ cs, buildCards xs = .ok cs := by
  intro xs
  induction xs with
  | nil => exact fun _ => ⟨[], rfl⟩
  | cons x r ih =>
    intro h
    rw [allWtService, Bool.and_eq_true] at h
    obtain ⟨c, hc⟩ := card_ok view_option x hview h.1
    obtain ⟨cs, hcs⟩ := ih h.2
    exact ⟨c :: cs, by simp [buildCards, hc, hcs, except_bind_ok]⟩

theorem renderPrimary_ok (view_option : String) (d : Json)
    (h : wtPrimary view_option d = true) :
    (renderPrimary view_option d).isOk = true := by
  cases d with
  | obj fs =>
    rw [wtPrimary, Bool.and_eq_true] at h
    obtain ⟨u, hu⟩ := upper_ok (fs.lookup "status") h.1
    have hres := h.2
    simp only [renderPrimary, pyGet, except_bind_ok, hu]
    cases hr : fs.lookup "results" with
    | none => simp [hr, truthy, except_bind_ok, Except.isOk, Except.toBool]
    | some v =>
      rw [hr] at hres
      cases htv : truthy v with
      | false => simp [hr, htv, except_bind_ok, Except.isOk, Except.toBool]
      | true =>
        simp only [Option.getD_some, htv, Bool.not_true, Bool.false_or] at hres
        cases v with
        | arr xs =>
          have hall : allWtService view_option xs = true := by simpa using hres
          cases hview : (view_option == "Table view") with
          | true =>
            obtain ⟨rs, hrs⟩ := buildRows_ok view_option xs hall
            simp [hr, htv, hview, pyIter, except_bind_ok, hrs, Except.isOk, Except.toBool]
          | false =>
            obtain ⟨cs, hcs⟩ := buildCards_ok view_option hview xs hall
            simp [hr, htv, hview, pyIter, except_bind_ok, hcs, Except.isOk, Except.toBool]
        | null => simp at hres
        | bool b => simp at hres
        | num n => simp at hres
        | str s => simp at hres
        | obj gs => simp at hres
  | null => simp [wtPrimary] at h
  | bool b => simp [wtPrimary] at h
  | num n => simp [wtPrimary] at h
  | str s => simp [wtPrimary] at h
  | arr ys => simp [wtPrimary] at h

/-! ## Claim theorems -/

/-- C3: for every sequence of secondary-fetch outcomes (any mix of successes
and failures, successes carrying interface-conformant object payloads) and
the configured endpoint count, the Kafka loop produces exactly
`total_endpoints` lag entries and exactly `total_endpoints` diagnostic
entries, whose endpoint indices are `1..total_endpoints` in ascending
order; a failed endpoint contributes a sentinel entry, never a missing
one. -/
theorem c3_lag_diag_counts (base : String) (secondary : Nat → Option Json)
    (h : ∀ i ∈ List.range' 1 total_endpoints, truthyImpObj (secondary i) = true) :
    (runKafka base secondary total_endpoints).map
        (fun p => (p.1.length, p.2.length, p.2.map DiagEntry.endpoint)) =
      .ok (total_endpoints, total_endpoints, List.range' 1 total_endpoints) := by
  rw [runKafka, runKafkaList_eq base secondary _ h]
  have hend : ∀ i ∈ List.range' 1 total_endpoints,
      (DiagEntry.endpoint ∘ fun i => (stepValue base secondary i).2) i = id i :=
    fun i _ => stepValue_endpoint base secondary i
  simp only [Except.map]
  rw [List.map_map, List.map_congr_left hend, List.map_id]
  simp

/-- C3 witness: the all-failures fetch sequence. -/
theorem c3_lag_diag_counts_witness :
    (∀ i ∈ List.range' 1 total_endpoints,
        truthyImpObj ((fun _ => (none : Option Json)) i) = true) ∧
    (runKafka "" (fun _ => none) total_endpoints).map
        (fun p => (p.1.length, p.2.length, p.2.map DiagEntry.endpoint)) =
      .ok (total_endpoints, total_endpoints, List.range' 1 total_endpoints) :=
  ⟨by decide, c3_lag_diag_counts "" (fun _ => none) (by decide)⟩

/-- C5: if the secondary fetch fails exactly at indices 3 and 7 out of 16,
the lag entries at 0-based positions 2 and 6 are the sentinels with topic
"Endpoint 3"/"Endpoint 7" and lag "Error"; every other position `k - 1`
carries the `lag` value of its own successful payload (with the usual
defaults), and both lists still have 16 entries. -/
theorem c5_failures_at_3_and_7 (base : String) (secondary : Nat → Option Json)
    (k : Nat) (fs : List (String × Json))
    (h3 : secondary 3 = none) (h7 : secondary 7 = none)
    (hok : ∀ i ∈ List.range' 1 total_endpoints, i ≠ 3 → i ≠ 7 →
      succObj (secondary i) = true)
    (hk1 : 1 ≤ k) (hk16 : k ≤ total_endpoints) (hk3 : k ≠ 3) (hk7 : k ≠ 7)
    (hfk : secondary k = some (.obj fs)) :
    (runKafka base secondary total_endpoints).map
        (fun p => (p.1.length, p.2.length, p.1[2]?, p.1[6]?, p.1[k-1]?)) =
      .ok (total_endpoints, total_endpoints,
           some { topic := .str "Endpoint 3", lag := .str "Error" },
           some { topic := .str "Endpoint 7", lag := .str "Error" },
           some (lagSuccess fs)) := by
  have h : ∀ i ∈ List.range' 1 total_endpoints, truthyImpObj (secondary i) = true := by
    intro i hi
    by_cases hi3 : i = 3
    · rw [hi3, h3]; rfl
    by_cases hi7 : i = 7
    · rw [hi7, h7]; rfl
    exact truthyImpObj_of_succObj _ (hok i hi hi3 hi7)
  have hkmem : k ∈ List.range' 1 total_endpoints :=
    List.mem_range'_1.mpr ⟨hk1, by omega⟩
  have hne : fs.isEmpty = false := by
    have := hok k hkmem hk3 hk7
    rw [hfk] at this
    simpa [succObj] using this
  rw [runKafka, runKafkaList_eq base secondary _ h]
  have e2 : (List.map (fun i => (stepValue base secondary i).1)
      (List.range' 1 total_endpoints))[2]? = some (stepValue base secondary 3).1 := by
    rw [List.getElem?_map, getElem?_range'_one 1 total_endpoints 2 (by decide)]
    rfl
  have e6 : (List.map (fun i => (stepValue base secondary i).1)
      (List.range' 1 total_endpoints))[6]? = some (stepValue base secondary 7).1 := by
    rw [List.getElem?_map, getElem?_range'_one 1 total_endpoints 6 (by decide)]
    rfl
  have ek : (List.map (fun i => (stepValue base secondary i).1)
      (List.range' 1 total_endpoints))[k-1]? = some (stepValue base secondary k).1 := by
    rw [List.getElem?_map, getElem?_range'_one 1 total_endpoints (k - 1) (by omega)]
    have : 1 + (k - 1) = k := by omega
    rw [this]
    rfl
  rw [stepValue_of_none base secondary 3 h3] at e2
  rw [stepValue_of_none base secondary 7 h7] at e6
  rw [stepValue_of_success base secondary k fs hfk hne] at ek
  simp [Except.map, e2, e6, ek, sentinelPair]
  exact ⟨rfl, rfl⟩

/-- C5 witness fetch: fails exactly at 3 and 7, a fixed object elsewhere. -/
def c5Fetch : Nat → Option Json := fun i =>
  if i = 3 ∨ i = 7 then none
  else some (.obj [("topic", .str "t"), ("lag", .num 9)])

/-- C5 witness: the scenario instantiated at position k = 5. -/
theorem c5_failures_at_3_and_7_witness :
    (c5Fetch 3 = none) ∧ (c5Fetch 7 = none) ∧
    (∀ i ∈ List.range' 1 total_endpoints, i ≠ 3 → i ≠ 7 →
      succObj (c5Fetch i) = true) ∧
    (runKafka "" c5Fetch total_endpoints).map
        (fun p => (p.1.length, p.2.length, p.1[2]?, p.1[6]?, p.1[4]?)) =
      .ok (total_endpoints, total_endpoints,
           some { topic := .str "Endpoint 3", lag := .str "Error" },
           some { topic := .str "Endpoint 7", lag := .str "Error" },
           some (lagSuccess [("topic", .str "t"), ("lag", .num 9)])) :=
  ⟨rfl, rfl, by decide,
   c5_failures_at_3_and_7 "" c5Fetch 5 [("topic", .str "t"), ("lag", .num 9)]
     rfl rfl (by decide) (by decide) (by decide) (by decide) (by decide) rfl⟩

/-- C6 (amended): for every secondary fetch that succeeds with a truthy
payload (necessarily a non-empty object), the lag entry takes the payload's
`topic` field (default "Unknown") and `lag` field (default "N/A"), and the
diagnostic entry records the success: the raw response and the message
"Endpoint i OK". -/
theorem c6_success_record (base : String) (secondary : Nat → Option Json)
    (i : Nat) (fs : List (String × Json))
    (h : ∀ m ∈ List.range' 1 total_endpoints, truthyImpObj (secondary m) = true)
    (h1 : 1 ≤ i) (h2 : i ≤ total_endpoints)
    (hfi : secondary i = some (.obj fs)) (hne : fs.isEmpty = false) :
    (runKafka base secondary total_endpoints).map
        (fun p => (p.1[i-1]?, p.2[i-1]?)) =
      .ok (some (lagSuccess fs),
           some { endpoint := i, url := base ++ natRepr i, response := .obj fs,
                  message := "Endpoint " ++ natRepr i ++ " OK" }) := by
  rw [runKafka_pos base secondary total_endpoints i h h1 h2,
      stepValue_of_success base secondary i fs hfi hne]

/-- C6 witness: a truthy object payload at endpoint 2. -/
theorem c6_success_record_witness :
    (∀ m ∈ List.range' 1 total_endpoints,
        truthyImpObj ((fun _ => some (Json.obj [("lag", .num 3)])) m) = true) ∧
    ((fun _ => some (Json.obj [("lag", .num 3)])) 2 = some (.obj [("lag", .num 3)])) ∧
    (([("lag", Json.num 3)] : List (String × Json)).isEmpty = false) ∧
    (runKafka "u" (fun _ => some (Json.obj [("lag", .num 3)])) total_endpoints).map
        (fun p => (p.1[2-1]?, p.2[2-1]?)) =
      .ok (some (lagSuccess [("lag", .num 3)]),
           some { endpoint := 2, url := "u" ++ natRepr 2, response := .obj [("lag", .num 3)],
                  message := "Endpoint " ++ natRepr 2 ++ " OK" }) :=
  ⟨by decide, rfl, rfl,
   c6_success_record "u" (fun _ => some (Json.obj [("lag", .num 3)])) 2 [("lag", .num 3)]
     (by decide) (by decide) (by decide) rfl rfl⟩

/-- C6 counterexample: a secondary fetch that succeeds (returns a JSON
value, the empty object) whose lag entry is the error sentinel, not the
payload defaults "Unknown"/"N/A" that the claim promises for every
success. -/
theorem c6_counterexample :
    ((fun _ => some (Json.obj [])) 1 = some (Json.obj [])) ∧
    (runKafka "" (fun _ => some (Json.obj [])) total_endpoints).map
        (fun p => p.1[0]?) =
      .ok (some { topic := .str "Endpoint 1", lag := .str "Error" }) ∧
    ({ topic := .str "Endpoint 1", lag := .str "Error" } : LagEntry) ≠
      { topic := .str "Unknown", lag := .str "N/A" } :=
  ⟨rfl, rfl, fun h => absurd (Json.str.inj (congrArg LagEntry.topic h)) (by decide)⟩

/-- C10: a secondary fetch that succeeds but returns a falsy JSON value
(such as the empty object) produces the failure sentinel — topic
"Endpoint i", lag "Error" — and a diagnostic entry with response marker
"Error" and message "Endpoint i returned error", exactly as if the fetch
had failed. -/
theorem c10_falsy_success_sentinel (base : String) (secondary : Nat → Option Json)
    (i : Nat) (j : Json)
    (h : ∀ m ∈ List.range' 1 total_endpoints, truthyImpObj (secondary m) = true)
    (h1 : 1 ≤ i) (h2 : i ≤ total_endpoints)
    (hfi : secondary i = some j) (hft : truthy j = false) :
    (runKafka base secondary total_endpoints).map
        (fun p => (p.1[i-1]?, p.2[i-1]?)) =
      .ok (some { topic := .str ("Endpoint " ++ natRepr i), lag := .str "Error" },
           some { endpoint := i, url := base ++ natRepr i, response := .str "Error",
                  message := "Endpoint " ++ natRepr i ++ " returned error" }) := by
  rw [runKafka_pos base secondary total_endpoints i h h1 h2,
      stepValue_of_not_truthy base secondary i j hfi hft]
  rfl

/-- C10 witness: the empty-object payload at endpoint 1. -/
theorem c10_falsy_success_sentinel_witness :
    (∀ m ∈ List.range' 1 total_endpoints,
        truthyImpObj ((fun _ => some (Json.obj [])) m) = true) ∧
    ((fun _ => some (Json.obj [])) 1 = some (Json.obj [])) ∧
    (truthy (Json.obj []) = false) ∧
    (runKafka "" (fun _ => some (Json.obj [])) total_endpoints).map
        (fun p => (p.1[1-1]?, p.2[1-1]?)) =
      .ok (some { topic := .str ("Endpoint " ++ natRepr 1), lag := .str "Error" },
           some { endpoint := 1, url := "" ++ natRepr 1, response := .str "Error",
                  message := "Endpoint " ++ natRepr 1 ++ " returned error" }) :=
  ⟨by decide, rfl, rfl,
   c10_falsy_success_sentinel "" (fun _ => some (Json.obj [])) 1 (Json.obj [])
     (by decide) (by decide) (by decide) rfl rfl⟩

/-- C4 counterexample: when the primary fetch fails, `main` returns early:
the outcome carries zero lag entries and zero diagnostics, not the
`total_endpoints` records the claim promises — the secondary fetches are
not executed at all. -/
theorem c4_counterexample :
    main "Table view" none ""
        (fun _ => some (.obj [("topic", .str "t"), ("lag", .num 0)])) =
      .ok failedOutcome ∧
    failedOutcome.lagEntries.length = 0 ∧
    failedOutcome.diagnostics.length = 0 ∧
    failedOutcome.lagEntries.length ≠ total_endpoints :=
  ⟨rfl, rfl, rfl, by decide⟩

/-- C4 (amended): if the primary fetch fails (or the body is JSON null,
which Python cannot distinguish from a failure), `main` shows an error and
returns early: the failure is marked, no services are rendered, no overall
status is computed, and the secondary fetches are not executed — the lag
and diagnostic lists are empty. -/
theorem c4_amended_early_return (view_option base : String)
    (secondary : Nat → Option Json) :
    main view_option none base secondary = .ok failedOutcome ∧
    main view_option (some .null) base secondary = .ok failedOutcome ∧
    failedOutcome.primaryFetchFailed = true ∧
    failedOutcome.primaryView = none ∧
    failedOutcome.lagEntries = [] ∧
    failedOutcome.diagnostics = [] :=
  ⟨rfl, rfl, rfl, rfl, rfl, rfl⟩

/-- The service payload element of claim C7. -/
def serviceX : Json :=
  .obj [("name", .str "X"), ("status", .str "DOWN"),
        ("tags", .arr [.str "a", .str "b"])]

/-- C7: a service record built from `{name:"X", status:"DOWN",
tags:["a","b"]}` is classified at the Critical tier (vermilion color, cross
emoji, case-insensitive match of "DOWN"), and its tags are preserved
exactly in the original order, both in the extracted value and in the
rendered "a, b" join. -/
theorem c7_roundtrip :
    get_status_color (.str "DOWN") = "#D55E00" ∧
    get_status_emoji (.str "DOWN") = "❌" ∧
    pyGet serviceX "tags" (.arr []) = .ok (.arr [.str "a", .str "b"]) ∧
    tableRowOf serviceX =
      .ok { name := .str "X", statusCell := "❌ DOWN",
            description := .str "N/A", tags := "a, b" } ∧
    display_service_card_html serviceX =
      .ok { name := "X", statusText := "DOWN", color := "#D55E00",
            description := "No details provided", tagsText := "a, b" } :=
  ⟨rfl, rfl, rfl, rfl, rfl⟩

/-- C8: for every service element (dict) with no `description` key, the
table view renders the description as exactly "N/A" while the card view
renders exactly "No details provided". -/
theorem c8_description_fallbacks (fs : List (String × Json))
    (h : fs.lookup "description" = none) :
    descCellTable (.obj fs) = .ok (.str "N/A") ∧
    descCellCard (.obj fs) = .ok (.str "No details provided") := by
  refine ⟨?_, ?_⟩ <;>
    (simp only [descCellTable, descCellCard, pyGet]; rw [h]; rfl)

/-- C8 witness: the empty service dict. -/
theorem c8_description_fallbacks_witness :
    (List.lookup "description" ([] : List (String × Json)) = none) ∧
    (descCellTable (.obj []) = .ok (.str "N/A") ∧
     descCellCard (.obj []) = .ok (.str "No details provided")) :=
  ⟨rfl, c8_description_fallbacks [] rfl⟩

/-- C1 counterexample: the primary payload `{"status": 5}` — a wrong-typed
(non-string) `status` field — makes the rendering raise `AttributeError`
at `overall_status.upper()` instead of defaulting; processing does not
complete normally. -/
theorem c1_counterexample :
    renderPrimary "Table view" (.obj [("status", .num 5)]) =
      .error "AttributeError" ∧
    main "Table view" (some (.obj [("status", .num 5)])) "" (fun _ => none) =
      .error "AttributeError" :=
  ⟨rfl, rfl⟩

/-! ## Character analysis: `str()` of a non-string JSON value is never a
status keyword -/

/-- Decimal-digit character test on the code point. -/
def isDigitChar (c : Char) : Bool := 48 ≤ c.toNat && c.toNat ≤ 57

/-- All ten status keywords of `get_status_color` / `get_status_emoji`. -/
def statusKeywords : List String :=
  ["healthy", "up", "ok", "good", "warning", "degraded", "slow",
   "down", "fail", "error"]

theorem pyDigit_digit (m : Nat) (h : m < 10) : isDigitChar (pyDigit m) = true := by
  interval_cases m <;> decide

theorem natReprAux_digits :
    ∀ fuel n c, c ∈ natReprAux fuel n → isDigitChar c = true := by
  intro fuel
  induction fuel with
  | zero => intro n c hc; simp [natReprAux] at hc
  | succ f ih =>
    intro n c hc
    rw [natReprAux] at hc
    by_cases hn : n < 10
    · rw [if_pos hn] at hc
      simp at hc
      rw [hc]
      exact pyDigit_digit n hn
    · rw [if_neg hn] at hc
      rcases List.mem_append.mp hc with hm | hm
      · exact ih _ _ hm
      · simp at hm
        rw [hm]
        exact pyDigit_digit _ (Nat.mod_lt _ (by omega))

theorem intRepr_chars (i : Int) :
    ∀ c ∈ (intRepr i).data, isDigitChar c = true ∨ c = '-' := by
  intro c hc
  unfold intRepr at hc
  by_cases hi : i < 0
  · rw [if_pos hi, String.data_append] at hc
    rcases List.mem_append.mp hc with hm | hm
    · right
      have hd : ("-" : String).data = ['-'] := rfl
      rw [hd] at hm
      simpa using hm
    · left
      exact natReprAux_digits _ _ c hm
  · rw [if_neg hi] at hc
    left
    exact natReprAux_digits _ _ c hc

theorem pyCharLower_fix (c : Char) (h : isDigitChar c = true ∨ c = '-') :
    pyCharLower c = c := by
  rcases h with hd | rfl
  · have hb : 48 ≤ c.toNat ∧ c.toNat ≤ 57 := by simpa [isDigitChar] using hd
    unfold pyCharLower
    rw [if_neg]
    omega
  · decide

theorem pyLower_intRepr (i : Int) : pyLower (intRepr i) = intRepr i := by
  unfold pyLower
  rw [show (intRepr i).data.map pyCharLower = (intRepr i).data.map id from
      List.map_congr_left fun c hc => pyCharLower_fix c (intRepr_chars i c hc),
    List.map_id]

theorem intRepr_ne_of_letter (i : Int) (t : String)
    (h : t.data.any (fun c => !(isDigitChar c || c == '-')) = true) :
    intRepr i ≠ t := by
  intro e
  obtain ⟨c, hct, hc⟩ := List.any_eq_true.mp h
  rcases intRepr_chars i c (by rw [e]; exact hct) with hd | rfl
  · rw [hd] at hc
    simp at hc
  · simp at hc

theorem intRepr_not_keyword (i : Int) : ∀ t ∈ statusKeywords, intRepr i ≠ t := by
  intro t ht
  fin_cases ht <;> exact intRepr_ne_of_letter i _ (by decide)

theorem sub_healthy :
    ∀ x ∈ (["healthy", "up", "ok", "good"] : List String), x ∈ statusKeywords := by
  intro x hx
  fin_cases hx <;> decide

theorem sub_warning :
    ∀ x ∈ (["warning", "degraded", "slow"] : List String), x ∈ statusKeywords := by
  intro x hx
  fin_cases hx <;> decide

theorem sub_critical :
    ∀ x ∈ (["down", "fail", "error"] : List String), x ∈ statusKeywords := by
  intro x hx
  fin_cases hx <;> decide

theorem head_not_keyword (s : String) (c : Char) (hs : s.data.head? = some c)
    (hc : c = '[' ∨ c = '.' ∨ c = '\x7b') : pyLower s ∉ statusKeywords := by
  intro hmem
  have hhead : (pyLower s).data.head? = some (pyCharLower c) := by
    unfold pyLower
    show (s.data.map pyCharLower).head? = _
    rw [List.head?_map, hs]
    rfl
  rcases hc with rfl | rfl | rfl <;>
  · simp only [statusKeywords, List.mem_cons, List.not_mem_nil, or_false] at hmem
    rcases hmem with h|h|h|h|h|h|h|h|h|h <;>
      (rw [h] at hhead; exact absurd hhead (by decide))

theorem color_emoji_unknown (j : Json) (h : pyLower (pyStr j) ∉ statusKeywords) :
    get_status_color j = "#999999" ∧ get_status_emoji j = "ℹ️" := by
  have h1 : pyLower (pyStr j) ∉ (["healthy", "up", "ok", "good"] : List String) :=
    fun hm => h (sub_healthy _ hm)
  have h2 : pyLower (pyStr j) ∉ (["warning", "degraded", "slow"] : List String) :=
    fun hm => h (sub_warning _ hm)
  have h3 : pyLower (pyStr j) ∉ (["down", "fail", "error"] : List String) :=
    fun hm => h (sub_critical _ hm)
  unfold get_status_color get_status_emoji
  simp [h1, h2, h3]

theorem pyReprF_base (fuel : Nat) :
    pyReprF fuel Json.null = "None" ∧
    (∀ b, pyReprF fuel (.bool b) = if b then "True" else "False") ∧
    (∀ n, pyReprF fuel (.num n) = intRepr n) := by
  cases fuel <;> exact ⟨rfl, fun b => by cases b <;> rfl, fun n => rfl⟩

theorem pyStr_null : pyStr Json.null = "None" := by
  show pyRepr Json.null = "None"
  unfold pyRepr
  exact (pyReprF_base _).1

theorem pyStr_bool (b : Bool) : pyStr (.bool b) = if b then "True" else "False" := by
  show pyRepr (.bool b) = _
  unfold pyRepr
  exact (pyReprF_base _).2.1 b

theorem pyStr_num (n : Int) : pyStr (.num n) = intRepr n := by
  show pyRepr (.num n) = intRepr n
  unfold pyRepr
  exact (pyReprF_base _).2.2 n

theorem pyStr_arr_head (xs : List Json) :
    (pyStr (.arr xs)).data.head? = some '[' ∨
    (pyStr (.arr xs)).data.head? = some '.' := by
  show (pyRepr (.arr xs)).data.head? = _ ∨ (pyRepr (.arr xs)).data.head? = _
  unfold pyRepr
  cases jsize (Json.arr xs) with
  | zero => right; rfl
  | succ f =>
    left
    show (("[" ++ String.intercalate ", " (xs.map (pyReprF f)) ++ "]")).data.head? =
      some '['
    rw [String.data_append, String.data_append]
    rfl

theorem pyStr_obj_head (fs : List (String × Json)) :
    (pyStr (.obj fs)).data.head? = some '\x7b' ∨
    (pyStr (.obj fs)).data.head? = some '.' := by
  show (pyRepr (.obj fs)).data.head? = _ ∨ (pyRepr (.obj fs)).data.head? = _
  unfold pyRepr
  cases jsize (Json.obj fs) with
  | zero => right; rfl
  | succ f =>
    left
    show (("\x7b" ++
        String.intercalate ", "
          (fs.map (fun kv => "\x27" ++ kv.1 ++ "\x27: " ++ pyReprF f kv.2)) ++
        "\x7d")).data.head? = some '\x7b'
    rw [String.data_append, String.data_append]
    rfl

/-- C2: for every string in the Healthy/Warning/Critical keyword sets under
any casing, the classifier yields the corresponding tier's color and emoji;
for every other string it yields the Unknown pair; and for every non-string
JSON value (null, booleans, numbers, arrays, objects) it also yields the
Unknown pair. Matching is exact keyword membership of the lowercased input,
never substring or fuzzy. -/
theorem c2_classification :
    (∀ s : String, pyLower s ∈ (["healthy", "up", "ok", "good"] : List String) →
      get_status_color (.str s) = "#0072B2" ∧ get_status_emoji (.str s) = "✅") ∧
    (∀ s : String, pyLower s ∈ (["warning", "degraded", "slow"] : List String) →
      get_status_color (.str s) = "#E69F00" ∧ get_status_emoji (.str s) = "⚠️") ∧
    (∀ s : String, pyLower s ∈ (["down", "fail", "error"] : List String) →
      get_status_color (.str s) = "#D55E00" ∧ get_status_emoji (.str s) = "❌") ∧
    (∀ s : String, pyLower s ∉ (["healthy", "up", "ok", "good"] : List String) →
      pyLower s ∉ (["warning", "degraded", "slow"] : List String) →
      pyLower s ∉ (["down", "fail", "error"] : List String) →
      get_status_color (.str s) = "#999999" ∧ get_status_emoji (.str s) = "ℹ️") ∧
    (∀ j : Json, isStr j = false →
      get_status_color j = "#999999" ∧ get_status_emoji j = "ℹ️") := by
  refine ⟨?_, ?_, ?_, ?_, ?_⟩
  · intro s hs
    unfold get_status_color get_status_emoji
    simp only [show pyStr (.str s) = s from rfl]
    simp [hs]
  · intro s hs
    have h1 : pyLower s ∉ (["healthy", "up", "ok", "good"] : List String) := by
      simp only [List.mem_cons, List.not_mem_nil, or_false] at hs
      rcases hs with h | h | h <;> (rw [h]; decide)
    unfold get_status_color get_status_emoji
    simp only [show pyStr (.str s) = s from rfl]
    simp [h1, hs]
  · intro s hs
    have h1 : pyLower s ∉ (["healthy", "up", "ok", "good"] : List String) := by
      simp only [List.mem_cons, List.not_mem_nil, or_false] at hs
      rcases hs with h | h | h <;> (rw [h]; decide)
    have h2 : pyLower s ∉ (["warning", "degraded", "slow"] : List String) := by
      simp only [List.mem_cons, List.not_mem_nil, or_false] at hs
      rcases hs with h | h | h <;> (rw [h]; decide)
    unfold get_status_color get_status_emoji
    simp only [show pyStr (.str s) = s from rfl]
    simp [h1, h2, hs]
  · intro s h1 h2 h3
    unfold get_status_color get_status_emoji
    simp only [show pyStr (.str s) = s from rfl]
    simp [h1, h2, h3]
  · intro j hj
    apply color_emoji_unknown
    cases j with
    | null =>
      rw [pyStr_null]
      decide
    | bool b =>
      rw [pyStr_bool]
      cases b <;> decide
    | num n =>
      rw [pyStr_num]
      intro hm
      rw [pyLower_intRepr] at hm
      exact intRepr_not_keyword n _ hm rfl
    | str s => simp [isStr] at hj
    | arr xs =>
      rcases pyStr_arr_head xs with hh | hh
      · exact head_not_keyword _ _ hh (Or.inl rfl)
      · exact head_not_keyword _ _ hh (Or.inr (Or.inl rfl))
    | obj fs =>
      rcases pyStr_obj_head fs with hh | hh
      · exact head_not_keyword _ _ hh (Or.inr (Or.inr rfl))
      · exact head_not_keyword _ _ hh (Or.inr (Or.inl rfl))

/-- C2 witness: one concrete input per clause ("downn" also shows that
near-keywords are not substring-matched). -/
theorem c2_classification_witness :
    (pyLower "UP" ∈ (["healthy", "up", "ok", "good"] : List String)) ∧
    (get_status_color (.str "UP") = "#0072B2" ∧
      get_status_emoji (.str "UP") = "✅") ∧
    (pyLower "Degraded" ∈ (["warning", "degraded", "slow"] : List String)) ∧
    (get_status_color (.str "Degraded") = "#E69F00" ∧
      get_status_emoji (.str "Degraded") = "⚠️") ∧
    (pyLower "fail" ∈ (["down", "fail", "error"] : List String)) ∧
    (get_status_color (.str "fail") = "#D55E00" ∧
      get_status_emoji (.str "fail") = "❌") ∧
    (pyLower "downn" ∉ (["healthy", "up", "ok", "good"] : List String)) ∧
    (pyLower "downn" ∉ (["warning", "degraded", "slow"] : List String)) ∧
    (pyLower "downn" ∉ (["down", "fail", "error"] : List String)) ∧
    (get_status_color (.str "downn") = "#999999" ∧
      get_status_emoji (.str "downn") = "ℹ️") ∧
    (isStr (.bool true) = false) ∧
    (get_status_color (.bool true) = "#999999" ∧
      get_status_emoji (.bool true) = "ℹ️") :=
  ⟨by decide, c2_classification.1 "UP" (by decide),
   by decide, c2_classification.2.1 "Degraded" (by decide),
   by decide, c2_classification.2.2.1 "fail" (by decide),
   by decide, by decide, by decide,
   c2_classification.2.2.2.1 "downn" (by decide) (by decide) (by decide),
   by decide, c2_classification.2.2.2.2 (.bool true) (by decide)⟩

/-- C9: `get_status_color` and `get_status_emoji` always classify an input
into the same tier: the color and the glyph shown for a status are
consistent with one another, for every JSON input. -/
theorem c9_color_emoji_consistent (j : Json) :
    (get_status_color j = "#0072B2" ↔ get_status_emoji j = "✅") ∧
    (get_status_color j = "#E69F00" ↔ get_status_emoji j = "⚠️") ∧
    (get_status_color j = "#D55E00" ↔ get_status_emoji j = "❌") ∧
    (get_status_color j = "#999999" ↔ get_status_emoji j = "ℹ️") := by
  unfold get_status_color get_status_emoji
  by_cases h1 : pyLower (pyStr j) ∈ ["healthy", "up", "ok", "good"] <;>
  by_cases h2 : pyLower (pyStr j) ∈ ["warning", "degraded", "slow"] <;>
  by_cases h3 : pyLower (pyStr j) ∈ ["down", "fail", "error"] <;>
  simp [h1, h2, h3]

/-- The well-typed payload used by the C1 witness. -/
def c1Payload : Json :=
  .obj [("status", .str "ok"),
        ("results", .arr [.obj [("name", .str "A"), ("tags", .arr [.str "x"])]])]

/-- C1 (amended): rendering a primary payload never raises provided the
fields it consumes with string methods are well-typed where present (a
string `status`, string-list `tags`, a list of dicts in `results`); every
missing field is replaced by its default, as the empty payload shows
(overall status "unknown", no services) — but wrong-typed values are not
defaulted and can raise (see the counterexample). -/
theorem c1_amended_totality (view_option : String) (d : Json)
    (h : wtPrimary view_option d = true) :
    (renderPrimary view_option d).isOk = true ∧
    renderPrimary view_option (.obj []) =
      .ok { overallLine := "## Overall System Status: ℹ️ UNKNOWN",
            timestamp := none, body := .noServices } :=
  ⟨renderPrimary_ok view_option d h, rfl⟩

/-- C1 witness: a concrete well-typed payload renders successfully. -/
theorem c1_amended_totality_witness :
    (wtPrimary "Table view" c1Payload = true) ∧
    ((renderPrimary "Table view" c1Payload).isOk = true ∧
     renderPrimary "Table view" (.obj []) =
       .ok { overallLine := "## Overall System Status: ℹ️ UNKNOWN",
             timestamp := none, body := .noServices }) :=
  ⟨by decide, c1_amended_totality "Table view" c1Payload (by decide)⟩

end Heartz
